import Mathlib

/-!
Shallow embedding of `src/src/components/TrivaGame.jsx` (a single-file React
trivia game) and proofs of the specification's claims about it.

The component has three parts:
* `fetchQuestions` (lines 19-58): token + question fetch with a bounded retry
  loop on HTTP 429;
* the quiz state machine: `handleAnswerSelect` (62-82), the 1.5 s auto-advance
  timer callback (73-81), `handleRestartGame` (85-91);
* the per-render answer presentation `allAnswers` (124-127), a random
  comparator sort of `[...incorrect_answers, correct_answer]`.

React `useState` fields become one record `GameState`; the render branches
(lines 94-178) induce the derived `phase`.  Machine integers are `Nat`
(all counters are small and only incremented); fallible lookups are `Option`.
-/

namespace TriviaGame

/-- One question as delivered by the API (`response.data.results` items):
`{ question, correct_answer, incorrect_answers }`. -/
structure Question where
  question : String
  correct_answer : String
  incorrect_answers : List String
deriving DecidableEq, Repr

/-! ## Session Loader: `fetchQuestions` (TrivaGame.jsx lines 19-58) -/

/-- Result of one HTTP request: either a 2xx response carrying a body, or a
transport failure carrying the HTTP status (axios rejects non-2xx, and the
catch block reads `err.response?.status`). -/
inductive HttpResult (α : Type) where
  | ok (body : α)
  | err (status : Nat)
deriving DecidableEq, Repr

/-- Body of the question endpoint: `{ response_code, results }` (line 36). -/
structure ApiBody where
  response_code : Nat
  results : List Question
deriving DecidableEq, Repr

/-- The remote service, as seen by attempt number `n` (0-based): the token
endpoint response and, given the token string, the question endpoint
response. -/
structure Server where
  tokenReq : Nat → HttpResult String
  questionReq : Nat → String → HttpResult ApiBody

/-- The error caught by the `catch` block of `fetchQuestions`: either an HTTP
transport error with its status (`err.response?.status` is defined), or the
locally thrown `Error("Invalid response from server")` for a nonzero
`response_code` (line 39), which has no `response` field, so its status reads
as `undefined`. -/
inductive FetchErr where
  | http (status : Nat)
  | invalidResponse
deriving DecidableEq, Repr

/-- The `err.response?.status === 429` test of line 43. `invalidResponse` has
no HTTP status, so the test is false on it. -/
def FetchErr.is429 : FetchErr → Bool
  | .http status => status == 429
  | .invalidResponse => false

/-- The `try` block of one attempt (lines 21-40): request a token, request the
questions with it, then inspect `response_code`: `0` delivers the results,
anything else throws `Error("Invalid response from server")`. -/
def tryAttempt (server : Server) (n : Nat) : Except FetchErr (List Question) :=
  match server.tokenReq n with
  | .err status => .error (.http status)
  | .ok token =>
    match server.questionReq n token with
    | .err status => .error (.http status)
    | .ok body =>
      if body.response_code = 0 then .ok body.results
      else .error .invalidResponse

/-- Terminal outcome of the loader: `setQuestions(results)` on success, or
`setError(...)` with the caught error that ended the loop recorded for
classification. -/
inductive FetchOutcome where
  | success (results : List Question)
  | failure (finalErr : FetchErr)
deriving DecidableEq, Repr

/-- Observable trace of a `fetchQuestions` run: the terminal outcome, the
number of full token+fetch attempts performed, and the list of
`setTimeout` delays (ms) waited before each retry. -/
structure FetchResult where
  outcome : FetchOutcome
  attempts : Nat
  delays : List Nat
deriving DecidableEq, Repr

/-- `fetchQuestions(retryCount)` (lines 19-56): run one attempt; on an error
with `retryCount < 3 && err.response?.status === 429` retry the whole
sequence after a 2000 ms delay with `retryCount + 1`, otherwise set the
error. -/
def fetchQuestionsFrom (server : Server) (retryCount : Nat) : FetchResult :=
  match tryAttempt server retryCount with
  | .ok results => { outcome := .success results, attempts := 1, delays := [] }
  | .error e =>
    if h : retryCount < 3 ∧ e.is429 = true then
      let r := fetchQuestionsFrom server (retryCount + 1)
      { outcome := r.outcome, attempts := r.attempts + 1, delays := 2000 :: r.delays }
    else
      { outcome := .failure e, attempts := 1, delays := [] }
termination_by 3 - retryCount
decreasing_by omega

/-- The mount-time call `fetchQuestions()` (line 58), i.e. `retryCount = 0`. -/
def fetchQuestions (server : Server) : FetchResult :=
  fetchQuestionsFrom server 0

/-! ## Quiz state: the `useState` fields (lines 6-15) -/

/-- The component's `useState` fields.  `selectedAnswer`'s JS `null` is
`none`; `error`'s `null` is `none`. -/
structure GameState where
  questions : List Question
  loading : Bool
  error : Option String
  currentQuestionIndex : Nat
  selectedAnswer : Option String
  score : Nat
  showResult : Bool
  gameOver : Bool
deriving DecidableEq, Repr

/-- The state right after a successful load: `setQuestions(results)` (line 37)
followed by `setLoading(false)` in `finally` (line 54); every other field is
still at its `useState` initial value (`setError(null)` ran at line 22). -/
def loadedState (qs : List Question) : GameState :=
  { questions := qs
    loading := false
    error := none
    currentQuestionIndex := 0
    selectedAnswer := none
    score := 0
    showResult := false
    gameOver := false }

/-- The discrete phase of §4.2 of the spec, derived from the render branch
order of lines 94-178: `loading` → Loading, `error` → Failed, `gameOver` →
Finished, empty `questions` → the `return null` empty display (the spec's
"Finished-equivalent empty display", called `Empty` here), else Feedback when
`showResult` is up, else Active. -/
inductive Phase where
  | Loading
  | Failed
  | Active
  | Feedback
  | Finished
  | Empty
deriving DecidableEq, Repr

/-- Phase of a state, following the render branches (lines 94-178). -/
def phase (s : GameState) : Phase :=
  if s.loading then .Loading
  else if s.error.isSome then .Failed
  else if s.gameOver then .Finished
  else if s.questions.length = 0 then .Empty
  else if s.showResult then .Feedback
  else .Active

/-! ## `handleAnswerSelect` (lines 62-82) and the auto-advance timer -/

/-- The synchronous part of `handleAnswerSelect(answer)` (lines 62-70): read
`questions[currentQuestionIndex]`, record the selection, show the result, and
bump the score on an exact string match with `correct_answer` (`===`,
line 68).  The indexing has no bounds guard in the source; an out-of-bounds
read makes `currentQuestion` `undefined` and the `.correct_answer` access on
line 68 a TypeError, modelled by `none`. -/
def handleAnswerSelect (s : GameState) (answer : String) : Option GameState :=
  match s.questions[s.currentQuestionIndex]? with
  | none => none
  | some currentQuestion =>
    some { s with
      selectedAnswer := some answer
      showResult := true
      score := if answer = currentQuestion.correct_answer then s.score + 1 else s.score }

/-- The `setTimeout` callback of lines 73-81, fired 1500 ms after a
selection: advance to the next question and clear the selection and result
flags, or end the game when on the last question.  The JS guard on line 74
compares in ℤ (`questions.length - 1` can be `-1`). -/
def advanceTimer (s : GameState) : GameState :=
  if (s.currentQuestionIndex : Int) < (s.questions.length : Int) - 1 then
    { s with
      currentQuestionIndex := s.currentQuestionIndex + 1
      selectedAnswer := none
      showResult := false }
  else
    { s with gameOver := true }

/-- A user click on an answer button (lines 143-147).  The button carries
`disabled={showResult}`, so while the result of the previous selection is
shown the click does not invoke `handleAnswerSelect` at all; otherwise the
handler runs and schedules the 1.5 s auto-advance timer (line 73).  The
returned `Bool` records whether such a timer was scheduled by this click. -/
def clickAnswer (s : GameState) (answer : String) : Option (GameState × Bool) :=
  if s.showResult then some (s, false)
  else
    match handleAnswerSelect s answer with
    | none => none
    | some t => some (t, true)

/-- `handleRestartGame` (lines 85-91): reset every game field, keep the loaded
`questions` (no re-fetch — the fetch effect runs only on mount, line 59). -/
def handleRestartGame (s : GameState) : GameState :=
  { s with
    currentQuestionIndex := 0
    score := 0
    selectedAnswer := none
    showResult := false
    gameOver := false }

/-! ## Answer presentation: `allAnswers` (lines 121-127)

`[...incorrect_answers, correct_answer].sort(() => Math.random() - 0.5)`.
`Array.prototype.sort` rearranges the array's elements: whatever the
comparator returns, the output is a permutation of the input; with an
inconsistent (here random) comparator the resulting order is
implementation-defined.  We model it as a comparison sort driven by an
arbitrary Boolean comparator `c` — `c a b = true` meaning the comparator run
placed `a` before `b` (the sign of `Math.random() - 0.5` on that call) — so
the comparator argument is exactly the random draw sequence of one `sort`
invocation. -/

/-- Insert `a` into `l` at the position the comparator outcomes dictate. -/
def insertBy (c : String → String → Bool) (a : String) : List String → List String
  | [] => [a]
  | b :: l => if c a b then a :: b :: l else b :: insertBy c a l

/-- The comparison sort with comparator `c`. -/
def sortBy (c : String → String → Bool) : List String → List String
  | [] => []
  | a :: l => insertBy c a (sortBy c l)

/-- `allAnswers` for a question (lines 124-127); this is the spec's
`presentAnswers(question)`, with the random draws made explicit as `c`. -/
def presentAnswers (c : String → String → Bool) (q : Question) : List String :=
  sortBy c (q.incorrect_answers ++ [q.correct_answer])

/-- The `allAnswers` list computed by ONE render of the component in state
`s`, with `c` that render's random draws: the game screen (and with it
`allAnswers`) is computed only when neither the loading, error nor game-over
branch returned first and `questions.length > 0` (lines 94-121), and it is
recomputed from scratch on every such render (lines 124-127). -/
def renderAllAnswers (c : String → String → Bool) (s : GameState) :
    Option (List String) :=
  if s.loading then none
  else if s.error.isSome then none
  else if s.gameOver then none
  else
    match s.questions[s.currentQuestionIndex]? with
    | none => none
    | some currentQuestion => some (presentAnswers c currentQuestion)

/-! ## The session transition system

Events the browser can deliver to a loaded session: a click on an enabled
answer button, the 1.5 s auto-advance timer firing, a click on the
`Play Again` button.  The guards record when the UI makes the event
possible: answer buttons exist only on the game screen (`!gameOver`,
lines 108, 121) and are `disabled={showResult}` (line 147); an auto-advance
timer is pending only after a selection, which set `showResult` (line 65);
`Play Again` exists only on the game-over screen (lines 108-116). -/

/-- One UI event applied to a session state. -/
inductive Step : GameState → GameState → Prop where
  | select {s t : GameState} (answer : String) :
      s.showResult = false → s.gameOver = false →
      handleAnswerSelect s answer = some t → Step s t
  | advance {s : GameState} :
      s.showResult = true → Step s (advanceTimer s)
  | restart {s : GameState} :
      s.gameOver = true → Step s (handleRestartGame s)

/-- States reachable from a freshly loaded batch `qs`. -/
inductive Reachable (qs : List Question) : GameState → Prop where
  | init : Reachable qs (loadedState qs)
  | step {s t : GameState} : Reachable qs s → Step s t → Reachable qs t

/-! ## Theorems -/

/-- Helper: when every token request succeeds and every question request
fails with HTTP 429, each attempt's `try` block raises the 429 error. -/
theorem tryAttempt_of_429 (server : Server) (tok : Nat → String)
    (ht : ∀ n, server.tokenReq n = .ok (tok n))
    (hq : ∀ n t, server.questionReq n t = .err 429) (n : Nat) :
    tryAttempt server n = .error (.http 429) := by
  simp [tryAttempt, ht n, hq n (tok n)]

/-- C1: when every question-endpoint request fails with HTTP 429 (token
requests succeeding), `fetchQuestions` performs exactly 4 attempts of the
full token+fetch sequence (1 initial + 3 retries), waits the fixed 2000 ms
delay before each of the 3 retries, and then resolves to the rate-limited
failure outcome (the terminal `setError` with the final 429 in hand) instead
of attempting again. -/
theorem fetch_always429_four_attempts_then_ratelimited
    (server : Server) (tok : Nat → String)
    (ht : ∀ n, server.tokenReq n = .ok (tok n))
    (hq : ∀ n t, server.questionReq n t = .err 429) :
    fetchQuestions server =
      { outcome := .failure (.http 429), attempts := 4,
        delays := [2000, 2000, 2000] } := by
  have h := tryAttempt_of_429 server tok ht hq
  simp [fetchQuestions, fetchQuestionsFrom, h, FetchErr.is429]

/-- Witness for C1 at a concrete always-429 server. -/
theorem fetch_always429_four_attempts_then_ratelimited_witness :
    fetchQuestions ⟨fun _ => .ok "tok", fun _ _ => .err 429⟩ =
      { outcome := .failure (.http 429), attempts := 4,
        delays := [2000, 2000, 2000] } :=
  fetch_always429_four_attempts_then_ratelimited
    ⟨fun _ => .ok "tok", fun _ _ => .err 429⟩
    (fun _ => "tok") (fun _ => rfl) (fun _ _ => rfl)

/-- C5: a question-endpoint response that arrives (HTTP success) with a
nonzero `response_code` makes the loader fail immediately with the
invalid-response outcome on its very first attempt: one attempt, no retry,
no delay — even though the whole retry budget (`0 < 3`) is still unused. -/
theorem invalid_response_code_fails_immediately
    (server : Server) (t : String) (body : ApiBody)
    (ht : server.tokenReq 0 = .ok t)
    (hq : server.questionReq 0 t = .ok body)
    (hc : body.response_code ≠ 0) :
    fetchQuestions server =
      { outcome := .failure .invalidResponse, attempts := 1, delays := [] } := by
  have h : tryAttempt server 0 = .error .invalidResponse := by
    simp [tryAttempt, ht, hq, hc]
  simp [fetchQuestions, fetchQuestionsFrom, h, FetchErr.is429]

/-- Witness for C5 at a concrete server answering `response_code = 1`. -/
theorem invalid_response_code_fails_immediately_witness :
    fetchQuestions ⟨fun _ => .ok "tok", fun _ _ => .ok ⟨1, []⟩⟩ =
      { outcome := .failure .invalidResponse, attempts := 1, delays := [] } :=
  invalid_response_code_fails_immediately
    ⟨fun _ => .ok "tok", fun _ _ => .ok ⟨1, []⟩⟩
    "tok" ⟨1, []⟩ rfl rfl (by decide)

/-- Helper: the flag values behind `phase s = Feedback`. -/
theorem flags_of_feedback (s : GameState) (h : phase s = .Feedback) :
    s.loading = false ∧ s.error = none ∧ s.gameOver = false ∧
      s.questions.length ≠ 0 ∧ s.showResult = true := by
  unfold phase at h
  split_ifs at h with h1 h2 h3 h4 h5
  simp_all [Option.not_isSome_iff_eq_none]

/-- Helper: the flag values behind `phase s = Finished`. -/
theorem flags_of_finished (s : GameState) (h : phase s = .Finished) :
    s.loading = false ∧ s.error = none ∧ s.gameOver = true := by
  unfold phase at h
  split_ifs at h with h1 h2 h3
  simp_all [Option.not_isSome_iff_eq_none]

/-- C2: clicking an answer while the session is in the Feedback phase (the
result of the previous selection is on screen, the 1.5 s timer has not yet
fired) is a no-op: the buttons are `disabled={showResult}`, so the state —
in particular `score` and `selectedAnswer` — is unchanged and no additional
auto-advance timer is scheduled. -/
theorem select_during_feedback_noop (s : GameState) (answer : String)
    (h : phase s = .Feedback) :
    clickAnswer s answer = some (s, false) := by
  have hs := (flags_of_feedback s h).2.2.2.2
  simp [clickAnswer, hs]

/-- Witness for C2 at a concrete Feedback state. -/
theorem select_during_feedback_noop_witness :
    clickAnswer
      { questions := [⟨"Q", "A", ["B", "C", "D"]⟩], loading := false,
        error := none, currentQuestionIndex := 0, selectedAnswer := some "B",
        score := 0, showResult := true, gameOver := false } "A" =
    some
      ({ questions := [⟨"Q", "A", ["B", "C", "D"]⟩], loading := false,
         error := none, currentQuestionIndex := 0, selectedAnswer := some "B",
         score := 0, showResult := true, gameOver := false }, false) :=
  select_during_feedback_noop _ "A" (by decide)

/-- C6: in an Active state whose current index is in bounds (`q` the current
question), selecting `answer` succeeds and increments `score` by exactly 1
iff `answer` is string-equal to `q.correct_answer` (the `===` of line 68);
otherwise `score` is unchanged.  The comparison never consults the shuffled
presentation order. -/
theorem select_scores_iff_exact_match (s : GameState) (answer : String)
    (q : Question) (_hph : phase s = .Active)
    (hq : s.questions[s.currentQuestionIndex]? = some q) :
    ∃ t, handleAnswerSelect s answer = some t ∧
      (t.score = s.score + 1 ↔ answer = q.correct_answer) ∧
      (answer ≠ q.correct_answer → t.score = s.score) := by
  unfold handleAnswerSelect
  rw [hq]
  refine ⟨_, rfl, ?_, ?_⟩
  · by_cases hA : answer = q.correct_answer <;> simp [hA]
  · intro hA
    simp [hA]

/-- Witness for C6 at a concrete Active state with a correct selection. -/
theorem select_scores_iff_exact_match_witness :
    ∃ t,
      handleAnswerSelect
        { questions := [⟨"Q", "A", ["B", "C", "D"]⟩], loading := false,
          error := none, currentQuestionIndex := 0, selectedAnswer := none,
          score := 0, showResult := false, gameOver := false } "A" = some t ∧
      (t.score = 0 + 1 ↔ "A" = (⟨"Q", "A", ["B", "C", "D"]⟩ : Question).correct_answer) ∧
      ("A" ≠ (⟨"Q", "A", ["B", "C", "D"]⟩ : Question).correct_answer → t.score = 0) :=
  select_scores_iff_exact_match _ "A" ⟨"Q", "A", ["B", "C", "D"]⟩
    (by decide) (by decide)

/-- C7: the 1.5 s auto-advance callback, fired from a Feedback state: when
`currentQuestionIndex < questions.length - 1` it advances the index by one,
clears `selectedAnswer` and the result flag, and the phase returns to
Active; otherwise (the current question is the last) it sets the phase to
Finished via `gameOver`. -/
theorem advance_timer_transition (s : GameState) (hph : phase s = .Feedback) :
    ((s.currentQuestionIndex : Int) < (s.questions.length : Int) - 1 →
      advanceTimer s =
        { s with currentQuestionIndex := s.currentQuestionIndex + 1,
                 selectedAnswer := none, showResult := false } ∧
      phase (advanceTimer s) = .Active) ∧
    (¬ (s.currentQuestionIndex : Int) < (s.questions.length : Int) - 1 →
      advanceTimer s = { s with gameOver := true } ∧
      phase (advanceTimer s) = .Finished) := by
  obtain ⟨hl, he, hg, hn, _⟩ := flags_of_feedback s hph
  constructor <;> intro h
  · refine ⟨by simp [advanceTimer, h], ?_⟩
    simp [advanceTimer, h, phase, hl, he, hg, hn]
  · refine ⟨by simp [advanceTimer, h], ?_⟩
    simp [advanceTimer, h, phase, hl, he]

/-- Witness for C7: both branches at concrete Feedback states (a 2-question
batch on its first question, and a 1-question batch on its last). -/
theorem advance_timer_transition_witness :
    (advanceTimer
        { questions := [⟨"Q1", "A", ["B"]⟩, ⟨"Q2", "C", ["D"]⟩],
          loading := false, error := none, currentQuestionIndex := 0,
          selectedAnswer := some "A", score := 1, showResult := true,
          gameOver := false } =
      { questions := [⟨"Q1", "A", ["B"]⟩, ⟨"Q2", "C", ["D"]⟩],
        loading := false, error := none, currentQuestionIndex := 1,
        selectedAnswer := none, score := 1, showResult := false,
        gameOver := false }) ∧
    (advanceTimer
        { questions := [⟨"Q1", "A", ["B"]⟩], loading := false, error := none,
          currentQuestionIndex := 0, selectedAnswer := some "A", score := 1,
          showResult := true, gameOver := false } =
      { questions := [⟨"Q1", "A", ["B"]⟩], loading := false, error := none,
        currentQuestionIndex := 0, selectedAnswer := some "A", score := 1,
        showResult := true, gameOver := true }) :=
  ⟨((advance_timer_transition _ (by decide)).1 (by decide)).1,
   ((advance_timer_transition _ (by decide)).2 (by decide)).1⟩

/-- C8: `handleRestartGame` resets `currentQuestionIndex`, `score`,
`selectedAnswer` and the flags, preserves the loaded `questions` unchanged
(and triggers no re-fetch — the fetch effect is mount-only), and is
idempotent: any positive number of iterated calls produces the identical
state; from a Finished phase with a non-empty batch the result is an Active
phase.  (Proved for every state, so in particular from Finished.) -/
theorem restart_idempotent_reset (s : GameState) :
    handleRestartGame s =
      { s with currentQuestionIndex := 0, score := 0, selectedAnswer := none,
               showResult := false, gameOver := false } ∧
    (handleRestartGame s).questions = s.questions ∧
    (∀ n : Nat, handleRestartGame^[n + 1] s = handleRestartGame s) ∧
    (phase s = .Finished → s.questions.length ≠ 0 →
      phase (handleRestartGame s) = .Active) := by
  refine ⟨rfl, rfl, ?_, ?_⟩
  · intro n
    induction n with
    | zero => simp
    | succ n ih =>
      rw [Function.iterate_succ_apply', ih]
      rfl
  · intro hph hn
    obtain ⟨hl, he, _⟩ := flags_of_finished s hph
    simp [handleRestartGame, phase, hl, he, hn]

/-- Witness for C8 at a concrete Finished state. -/
theorem restart_idempotent_reset_witness :
    phase
      (handleRestartGame
        { questions := [⟨"Q1", "A", ["B"]⟩], loading := false, error := none,
          currentQuestionIndex := 0, selectedAnswer := some "A", score := 1,
          showResult := true, gameOver := true }) = Phase.Active :=
  (restart_idempotent_reset _).2.2.2 (by decide) (by decide)

/-- C10 (implicit): `handleAnswerSelect` reads
`questions[currentQuestionIndex].correct_answer` with no emptiness or bounds
guard, so its lookup succeeds exactly when `currentQuestionIndex` is within
the batch; on an empty batch the access is undefined (the `none` branch). -/
theorem handleAnswerSelect_defined_iff_inbounds (s : GameState)
    (answer : String) :
    ((∃ t, handleAnswerSelect s answer = some t) ↔
      s.currentQuestionIndex < s.questions.length) ∧
    (s.questions = [] → handleAnswerSelect s answer = none) := by
  constructor
  · unfold handleAnswerSelect
    cases h : s.questions[s.currentQuestionIndex]? with
    | none =>
      rw [List.getElem?_eq_none_iff] at h
      simp
      omega
    | some q =>
      have := List.getElem?_eq_some_iff.1 h
      simp [this.1]
  · intro h
    simp [handleAnswerSelect, h]

/-- Witness for C10: on an empty batch the handler hits the undefined
branch. -/
theorem handleAnswerSelect_defined_iff_inbounds_witness :
    handleAnswerSelect
      { questions := [], loading := false, error := none,
        currentQuestionIndex := 0, selectedAnswer := none, score := 0,
        showResult := false, gameOver := false } "A" = none :=
  (handleAnswerSelect_defined_iff_inbounds _ "A").2 rfl

/-- Helper: inserting by any comparator outcome permutes. -/
theorem insertBy_perm (c : String → String → Bool) (a : String)
    (l : List String) : (insertBy c a l).Perm (a :: l) := by
  induction l with
  | nil => simp [insertBy]
  | cons b l ih =>
    unfold insertBy
    by_cases h : c a b
    · simp [h]
    · simp only [h, Bool.false_eq_true, if_false]
      exact (ih.cons b).trans (List.Perm.swap a b l)

/-- Helper: the comparison sort is a permutation whatever the comparator —
in particular for every sequence of random draws. -/
theorem sortBy_perm (c : String → String → Bool) (l : List String) :
    (sortBy c l).Perm l := by
  induction l with
  | nil => simp [sortBy]
  | cons a l ih => exact (insertBy_perm c a (sortBy c l)).trans (ih.cons a)

/-- C3: for every question with one correct answer and `K ≥ 1` incorrect
answers and every outcome of the random comparator, the presented answer
sequence `allAnswers`, viewed as a multiset, is exactly
`{correct_answer} ∪ incorrect_answers`: the randomized ordering introduces,
duplicates and loses nothing. -/
theorem presentAnswers_multiset_eq (c : String → String → Bool)
    (q : Question) (_hK : 1 ≤ q.incorrect_answers.length) :
    Multiset.ofList (presentAnswers c q) =
      q.correct_answer ::ₘ Multiset.ofList q.incorrect_answers := by
  have h1 : (presentAnswers c q).Perm
      (q.incorrect_answers ++ [q.correct_answer]) := sortBy_perm c _
  have h2 : (q.incorrect_answers ++ [q.correct_answer]).Perm
      (q.correct_answer :: q.incorrect_answers) :=
    List.perm_append_singleton q.correct_answer q.incorrect_answers
  rw [Multiset.cons_coe]
  exact Quot.sound (h1.trans h2)

/-- Witness for C3 at a concrete question and comparator outcome. -/
theorem presentAnswers_multiset_eq_witness :
    Multiset.ofList (presentAnswers (fun _ _ => true) ⟨"Q", "A", ["B", "C", "D"]⟩) =
      "A" ::ₘ Multiset.ofList ["B", "C", "D"] :=
  presentAnswers_multiset_eq (fun _ _ => true) ⟨"Q", "A", ["B", "C", "D"]⟩
    (by decide)

/-- C4 fails on the code: `allAnswers` is rebuilt, with fresh random draws,
by EVERY render of the game screen (lines 124-127 sit in the render body),
and selecting an answer re-renders the component in the Feedback phase, so
the displayed order is re-randomized mid-Feedback rather than derived once
per question entry and retained.  Concretely: the same Feedback state,
rendered under two (equally possible) random draw sequences, displays two
different answer orders. -/
theorem answers_rederived_mid_feedback :
    phase
      { questions := [⟨"Q", "A", ["B", "C", "D"]⟩], loading := false,
        error := none, currentQuestionIndex := 0, selectedAnswer := some "B",
        score := 0, showResult := true, gameOver := false } = Phase.Feedback ∧
    renderAllAnswers (fun _ _ => true)
      { questions := [⟨"Q", "A", ["B", "C", "D"]⟩], loading := false,
        error := none, currentQuestionIndex := 0, selectedAnswer := some "B",
        score := 0, showResult := true, gameOver := false } ≠
    renderAllAnswers (fun _ _ => false)
      { questions := [⟨"Q", "A", ["B", "C", "D"]⟩], loading := false,
        error := none, currentQuestionIndex := 0, selectedAnswer := some "B",
        score := 0, showResult := true, gameOver := false } := by
  decide

/-! ## C9: the reachability invariant -/

/-- The inductive invariant of the session: the score never exceeds the
batch size, is bounded by the number of questions already left behind
(`currentQuestionIndex`, plus the one being judged during Feedback), and the
index stays in bounds while the game is running on a non-empty batch. -/
def Inv (s : GameState) : Prop :=
  s.score ≤ s.questions.length ∧
  (s.showResult = false → s.score ≤ s.currentQuestionIndex) ∧
  (s.showResult = true → s.score ≤ s.currentQuestionIndex + 1) ∧
  (s.gameOver = false →
    s.questions.length = 0 ∨ s.currentQuestionIndex < s.questions.length)

/-- Helper: every UI event preserves the loaded batch. -/
theorem step_questions {s t : GameState} (hst : Step s t) :
    t.questions = s.questions := by
  cases hst with
  | select answer hsr hgo hsel =>
    unfold handleAnswerSelect at hsel
    cases hq : s.questions[s.currentQuestionIndex]? with
    | none => rw [hq] at hsel; cases hsel
    | some q =>
      rw [hq] at hsel
      simp only [Option.some.injEq] at hsel
      subst hsel
      rfl
  | advance hsr =>
    unfold advanceTimer
    split_ifs with h
    · rfl
    · rfl
  | restart hgo => rfl

/-- Helper: every UI event preserves `Inv`. -/
theorem step_inv {s t : GameState} (hInv : Inv s) (hst : Step s t) : Inv t := by
  obtain ⟨hsc, hA, hF, hG⟩ := hInv
  cases hst with
  | select answer hsr hgo hsel =>
    unfold handleAnswerSelect at hsel
    cases hq : s.questions[s.currentQuestionIndex]? with
    | none => rw [hq] at hsel; cases hsel
    | some q =>
      rw [hq] at hsel
      simp only [Option.some.injEq] at hsel
      subst hsel
      obtain ⟨hlt, -⟩ := List.getElem?_eq_some_iff.1 hq
      have h0 := hA hsr
      refine ⟨?_, ?_, ?_, ?_⟩
      · by_cases hAns : answer = q.correct_answer <;> simp [hAns] <;> omega
      · intro h
        cases h
      · intro _
        by_cases hAns : answer = q.correct_answer <;> simp [hAns] <;> omega
      · intro _
        exact Or.inr hlt
  | advance hsr =>
    unfold advanceTimer
    split_ifs with h
    · have h1 := hF hsr
      refine ⟨hsc, fun _ => h1, ?_, ?_⟩
      · intro hcontra
        cases hcontra
      · intro _
        refine Or.inr ?_
        show s.currentQuestionIndex + 1 < s.questions.length
        omega
    · exact ⟨hsc, hA, hF, fun hcontra => by cases hcontra⟩
  | restart hgo =>
    refine ⟨Nat.zero_le _, fun _ => Nat.zero_le _, fun _ => Nat.zero_le _, ?_⟩
    intro _
    exact (s.questions.length).eq_zero_or_pos

/-- Helper: every reachable state carries the loaded batch and `Inv`. -/
theorem reachable_inv {qs : List Question} {s : GameState}
    (h : Reachable qs s) : s.questions = qs ∧ Inv s := by
  induction h with
  | init =>
    refine ⟨rfl, Nat.zero_le _, fun _ => Nat.zero_le _, fun _ => Nat.zero_le _, ?_⟩
    intro _
    exact (qs.length).eq_zero_or_pos
  | step hr hst ih => exact ⟨(step_questions hst).trans ih.1, step_inv ih.2 hst⟩

/-- Helper: the flag values behind `phase s = Active`. -/
theorem flags_of_active (s : GameState) (h : phase s = .Active) :
    s.loading = false ∧ s.error = none ∧ s.gameOver = false ∧
      s.questions.length ≠ 0 ∧ s.showResult = false := by
  unfold phase at h
  split_ifs at h with h1 h2 h3 h4 h5
  simp_all [Option.not_isSome_iff_eq_none]

/-- C9: in a session loaded with a batch of `N = qs.length` questions, every
reachable state keeps the batch intact and satisfies `score ≤ N` (and
`0 ≤ score` trivially, both being ℕ), and whenever the phase is Active or
Feedback the current index is strictly within the batch; in particular the
final score of any full playthrough lies between `0` and `N`. -/
theorem reachable_score_and_index_bounds (qs : List Question) (s : GameState)
    (h : Reachable qs s) :
    s.questions = qs ∧ s.score ≤ qs.length ∧
      (phase s = .Active ∨ phase s = .Feedback →
        s.currentQuestionIndex < s.questions.length) := by
  obtain ⟨hq, hInv⟩ := reachable_inv h
  refine ⟨hq, hq ▸ hInv.1, ?_⟩
  intro hph
  have hflags : s.gameOver = false ∧ s.questions.length ≠ 0 := by
    cases hph with
    | inl h' =>
      obtain ⟨-, -, hg, hn, -⟩ := flags_of_active s h'
      exact ⟨hg, hn⟩
    | inr h' =>
      obtain ⟨-, -, hg, hn, -⟩ := flags_of_feedback s h'
      exact ⟨hg, hn⟩
  rcases hInv.2.2.2 hflags.1 with h0 | hlt
  · exact absurd h0 hflags.2
  · exact hlt

/-- Witness for C9 at the freshly loaded one-question session. -/
theorem reachable_score_and_index_bounds_witness :
    (loadedState [⟨"Q1", "A", ["B"]⟩]).questions = [⟨"Q1", "A", ["B"]⟩] ∧
    (loadedState [⟨"Q1", "A", ["B"]⟩]).score ≤ [(⟨"Q1", "A", ["B"]⟩ : Question)].length ∧
      (phase (loadedState [⟨"Q1", "A", ["B"]⟩]) = .Active ∨
          phase (loadedState [⟨"Q1", "A", ["B"]⟩]) = .Feedback →
        (loadedState [⟨"Q1", "A", ["B"]⟩]).currentQuestionIndex <
          (loadedState [⟨"Q1", "A", ["B"]⟩]).questions.length) :=
  reachable_score_and_index_bounds [⟨"Q1", "A", ["B"]⟩] _ Reachable.init

end TriviaGame
